import Mathlib

/-!
Verification development for the Jacaré auto-parts ERP (single-file
Streamlit application `jacaremp.py` backed by a PostgreSQL database).

The relational state (tables Produtos, Pedidos, Vendas, Devolucoes,
Entradas, Clientes) is embedded as lists of records, and each form
handler of the source is embedded as a function on that state.  Money
values are embedded as rationals; stock quantities as integers (the
source never constrains `estoque_atual` to be non-negative, so the
embedding must allow negative values).
-/

/-- Order lifecycle status, the values stored in `Pedidos.status_pedido`
(`'Pendente'`, `'Concluído'`, `'Cancelado'`). -/
inductive StatusPedido where
  | pendente
  | concluido
  | cancelado
deriving DecidableEq

/-- A row of the `Produtos` table (the fields the stock/order core touches). -/
structure Produto where
  produto_id : Nat
  descricao : String
  estoque_atual : Int
  preco_custo : Rat
  preco_venda : Rat
deriving DecidableEq

/-- A row of the `Pedidos` table. -/
structure Pedido where
  pedido_id : Nat
  cliente_id : Nat
  valor_total : Rat
  status_pedido : StatusPedido
  forma_pagamento : String
deriving DecidableEq

/-- A row of the `Vendas` table (an order line). -/
structure Venda where
  pedido_id : Nat
  produto_id : Nat
  quantidade : Nat
  preco_unitario : Rat
  subtotal : Rat
  desconto : Rat
deriving DecidableEq

/-- A row of the `Devolucoes` table.  `estado_produto` holds the stored
condition string (`"Novo"`, `"Avariado"`, `"Sucata"`). -/
structure Devolucao where
  pedido_id : Nat
  produto_id : Nat
  quantidade : Nat
  estado_produto : String
  retornou_estoque : Bool
deriving DecidableEq

/-- A row of the `Entradas` table (purchase-receipt history). -/
structure Entrada where
  produto_id : Nat
  fornecedor_id : Nat
  quantidade_comprada : Nat
  valor_unitario_compra : Rat
deriving DecidableEq

/-- A row of the `Clientes` table (the fields the coupon reads). -/
structure Cliente where
  cliente_id : Nat
  nome : String
  cpf_cnpj : String
deriving DecidableEq

/-- The database state: the tables the stock/order core reads and writes. -/
structure DB where
  produtos : List Produto
  pedidos : List Pedido
  vendas : List Venda
  devolucoes : List Devolucao
  entradas : List Entrada
  clientes : List Cliente
deriving DecidableEq

/-- Lookup of a product row by primary key
(`SELECT ... FROM Produtos WHERE produto_id = %s`). -/
def encontrarProduto (db : DB) (pid : Nat) : Option Produto :=
  db.produtos.find? (fun p => p.produto_id == pid)

/-- Row update of the `Produtos` table
(`UPDATE Produtos SET ... WHERE produto_id = %s`); `g` rewrites the
matching row. -/
def atualizarProduto (db : DB) (pid : Nat) (g : Produto → Produto) : DB :=
  { db with produtos :=
      db.produtos.map (fun p => if p.produto_id == pid then g p else p) }

/-- The `estoque_atual` field of product `pid`, when the product exists. -/
def estoqueDe (db : DB) (pid : Nat) : Option Int :=
  (encontrarProduto db pid).map Produto.estoque_atual

/-- The `preco_custo` field of product `pid`, when the product exists. -/
def custoDe (db : DB) (pid : Nat) : Option Rat :=
  (encontrarProduto db pid).map Produto.preco_custo

/-- Lookup of an order row by primary key. -/
def encontrarPedido (db : DB) (pid : Nat) : Option Pedido :=
  db.pedidos.find? (fun p => p.pedido_id == pid)

/-- The `status_pedido` field of order `pid`, when the order exists. -/
def statusDe (db : DB) (pid : Nat) : Option StatusPedido :=
  (encontrarPedido db pid).map Pedido.status_pedido

/-- The order lines stored for order `pid`
(`SELECT ... FROM Vendas WHERE pedido_id = %s`). -/
def vendasDoPedido (db : DB) (pid : Nat) : List Venda :=
  db.vendas.filter (fun v => v.pedido_id == pid)

/-- The id the serial `pedido_id` column assigns to the next inserted
order (`RETURNING pedido_id`): strictly greater than every existing id. -/
def proximoPedidoId (db : DB) : Nat :=
  (db.pedidos.map Pedido.pedido_id).foldr max 0 + 1

/-- Well-formedness of the stored state: every order line references an
existing order (foreign key `Vendas.pedido_id → Pedidos.pedido_id`). -/
def refsValidas (db : DB) : Prop :=
  ∀ v ∈ db.vendas, v.pedido_id ∈ db.pedidos.map Pedido.pedido_id

/-- A cart line held in `st.session_state.vendas` before the order is
committed. -/
structure ItemVenda where
  produto_id : Nat
  quantidade : Nat
  preco_unit_original : Rat
  desconto_perc : Rat
  preco_unit : Rat
  subtotal : Rat
deriving DecidableEq

/-- The `Adicionar Item` handler: reads the product's current price and
stock, computes `fator_desconto = 1 - (percentual_desconto / 100)`,
`preco_unit_com_desconto = preco_venda_original * fator_desconto` and
`subtotal_item = preco_unit_com_desconto * quantidade`; the item is
appended to the cart unless `quantidade_item > estoque_atual`, in which
case only an error is shown and the cart is left unchanged.  No
persisted state is touched. -/
def adicionarItem (db : DB) (pid : Nat) (qtd : Nat) (desconto : Rat)
    (carrinho : List ItemVenda) : List ItemVenda :=
  match encontrarProduto db pid with
  | none => carrinho
  | some prod =>
    let estoque_atual := prod.estoque_atual
    let preco_venda_original := prod.preco_venda
    let fator_desconto : Rat := 1 - desconto / 100
    let preco_unit_com_desconto := preco_venda_original * fator_desconto
    let subtotal_item := preco_unit_com_desconto * (qtd : Rat)
    if (qtd : Int) > estoque_atual then carrinho
    else carrinho ++ [{ produto_id := pid, quantidade := qtd,
                        preco_unit_original := preco_venda_original,
                        desconto_perc := desconto,
                        preco_unit := preco_unit_com_desconto,
                        subtotal := subtotal_item }]

/-- The `Vendas` row the `Registrar Pedido` handler inserts for one cart
item. -/
def vendaDoItem (pid : Nat) (item : ItemVenda) : Venda :=
  { pedido_id := pid, produto_id := item.produto_id,
    quantidade := item.quantidade, preco_unitario := item.preco_unit,
    subtotal := item.subtotal, desconto := item.desconto_perc }

/-- The `Pedidos` header row the `Registrar Pedido` handler inserts:
total `= sum of the cart subtotals`, status `'Pendente'`. -/
def pedidoNovo (db : DB) (cliente_id : Nat) (forma : String)
    (carrinho : List ItemVenda) : Pedido :=
  { pedido_id := proximoPedidoId db, cliente_id := cliente_id,
    valor_total := (carrinho.map ItemVenda.subtotal).sum,
    status_pedido := StatusPedido.pendente, forma_pagamento := forma }

/-- One iteration of the `Registrar Pedido` item loop: inserts the
`Vendas` row and runs
`UPDATE Produtos SET estoque_atual = estoque_atual - %s WHERE produto_id = %s`
— an unconditional decrement with no stock check. -/
def passoItem (pid : Nat) (acc : DB) (item : ItemVenda) : DB :=
  let acc1 := { acc with vendas := acc.vendas ++ [vendaDoItem pid item] }
  atualizarProduto acc1 item.produto_id
    (fun p => { p with estoque_atual := p.estoque_atual - (item.quantidade : Int) })

/-- The `Registrar Pedido` handler: in one transaction inserts the order
header (status `'Pendente'`, total = sum of cart subtotals), then for
each cart item inserts the `Vendas` row and decrements the product's
stock unconditionally, and commits. -/
def registrarPedido (db : DB) (cliente_id : Nat) (forma : String)
    (carrinho : List ItemVenda) : DB :=
  let pid := proximoPedidoId db
  let db1 := { db with pedidos :=
      db.pedidos ++ [pedidoNovo db cliente_id forma carrinho] }
  carrinho.foldl (passoItem pid) db1

/-- Python's `round(x, 4)` on the exact rational value: round to four
decimal places, ties to the even multiple.  Written on the numerator and
denominator of `x * 10000`: `f` is the floor, `r` the remainder, and the
fraction `r/d` is compared with `1/2` by comparing `2*r` with `d`. -/
def round4 (x : Rat) : Rat :=
  let y : Rat := x * 10000
  let d : Int := (y.den : Int)
  let f : Int := y.num.fdiv d
  let r : Int := y.num.fmod d
  let n : Int :=
    if 2 * r < d then f
    else if d < 2 * r then f + 1
    else if f % 2 = 0 then f else f + 1
  (n : Rat) / 10000

/-- The `Registrar Compra` handler: reads the product's current
`(estoque_atual, preco_custo)`, inserts the `Entradas` history row,
computes the weighted-average cost
`(estoque_atual*preco_custo + qtd*valor_unitario) / novo_estoque`
(falling back to the receipt's unit cost when `novo_estoque = 0`), and
updates the product with the new stock and the cost rounded to four
decimal places, committing both writes together. -/
def registrarCompra (db : DB) (pid fid : Nat) (qtd : Nat) (valorUnit : Rat) : DB :=
  match encontrarProduto db pid with
  | none => db
  | some prod =>
    let estoque_atual_db : Int := prod.estoque_atual
    let custo_atual_db : Rat := prod.preco_custo
    let db1 := { db with entradas :=
        db.entradas ++ [{ produto_id := pid, fornecedor_id := fid,
                          quantidade_comprada := qtd,
                          valor_unitario_compra := valorUnit }] }
    let valor_total_antigo : Rat := (estoque_atual_db : Rat) * custo_atual_db
    let valor_total_novo : Rat := (qtd : Rat) * valorUnit
    let novo_estoque : Int := estoque_atual_db + (qtd : Int)
    let novo_custo_medio : Rat :=
      if 0 < novo_estoque then
        (valor_total_antigo + valor_total_novo) / (novo_estoque : Rat)
      else valorUnit
    atualizarProduto db1 pid
      (fun p => { p with estoque_atual := novo_estoque,
                         preco_custo := round4 novo_custo_medio })

/-- The `Processar Pedidos Pendentes` bulk update:
`UPDATE Pedidos SET status_pedido = <alvo> WHERE pedido_id IN (<ids>)`.
The statement filters only on the id list — it carries no
`status_pedido = 'Pendente'` condition. -/
def marcarStatus (db : DB) (ids : List Nat) (alvo : StatusPedido) : DB :=
  { db with pedidos :=
      db.pedidos.map (fun p =>
        if ids.contains p.pedido_id then { p with status_pedido := alvo } else p) }

/-- Total quantity the cart holds for product `pid`, across all its lines. -/
def qtdNoCarrinho (carrinho : List ItemVenda) (pid : Nat) : Nat :=
  ((carrinho.filter (fun i => i.produto_id == pid)).map ItemVenda.quantidade).sum

/-- Sum of the quantities already recorded in `Devolucoes` for the
`(pedido, produto)` pair. -/
def somaDevolvida (db : DB) (pe pr : Nat) : Nat :=
  ((db.devolucoes.filter (fun d => d.pedido_id == pe && d.produto_id == pr)).map
    Devolucao.quantidade).sum

/-- The `Vendas` row for the `(pedido, produto)` pair the return form
operates on. -/
def vendaDoPar (db : DB) (pe pr : Nat) : Option Venda :=
  db.vendas.find? (fun v => v.pedido_id == pe && v.produto_id == pr)

/-- The quantity originally sold for the `(pedido, produto)` pair. -/
def qtdVendida (db : DB) (pe pr : Nat) : Option Nat :=
  (vendaDoPar db pe pr).map Venda.quantidade

/-- Acceptance test of the return form's quantity widget: `st.number_input`
with `min_value=1` and `max_value = int(item_selecionado.quantidade)` —
the quantity originally sold on the selected line.  Nothing else bounds
the quantity; in particular prior returns are not consulted. -/
def qtdDevolucaoAceita (db : DB) (pe pr : Nat) (q : Nat) : Bool :=
  match qtdVendida db pe pr with
  | some s => decide (1 ≤ q ∧ q ≤ s)
  | none => false

/-- Default of the `retornar_estoque` checkbox:
`value = (estado_produto == "Novo / Perfeito Estado")`. -/
def padraoRetornarEstoque (estado_produto : String) : Bool :=
  estado_produto == "Novo / Perfeito Estado"

/-- The `mapa_estado` dictionary translating the radio label into the
stored condition string. -/
def mapaEstado (estado_produto : String) : Option String :=
  if estado_produto == "Novo / Perfeito Estado" then some "Novo"
  else if estado_produto == "Avariado (Leve)" then some "Avariado"
  else if estado_produto == "Sucata / Danificado" then some "Sucata"
  else none

/-- The `Confirmar Devolução` handler's success path: inserts the
`Devolucoes` row and, when `retornar_estoque` is set, runs
`UPDATE Produtos SET estoque_atual = estoque_atual + %s WHERE produto_id = %s`,
then commits both together. -/
def confirmarDevolucao (db : DB) (pe pr : Nat) (qtd : Nat)
    (estadoFinal : String) (retornar : Bool) : DB :=
  let db1 := { db with devolucoes :=
      db.devolucoes ++ [{ pedido_id := pe, produto_id := pr, quantidade := qtd,
                          estado_produto := estadoFinal,
                          retornou_estoque := retornar }] }
  if retornar then
    atualizarProduto db1 pr
      (fun p => { p with estoque_atual := p.estoque_atual + (qtd : Int) })
  else db1

/-- The `Confirmar Devolução` handler with its `try/except/rollback`
structure made explicit: `okInsert` and `okIncremento` say whether the
two statements succeed at the gateway; any failure raises, the handler
rolls the connection back, and the database is left unchanged. -/
def confirmarDevolucaoTx (db : DB) (pe pr : Nat) (qtd : Nat)
    (estadoFinal : String) (retornar : Bool) (okInsert okIncremento : Bool) : DB :=
  if okInsert then
    let db1 := { db with devolucoes :=
        db.devolucoes ++ [{ pedido_id := pe, produto_id := pr, quantidade := qtd,
                            estado_produto := estadoFinal,
                            retornou_estoque := retornar }] }
    if retornar then
      if okIncremento then
        atualizarProduto db1 pr
          (fun p => { p with estoque_atual := p.estoque_atual + (qtd : Int) })
      else db
    else db1
  else db

/-- The coupon header row: `Pedidos` joined with `Clientes`
(`LEFT JOIN`, so a missing customer yields empty name fields). -/
structure CupomCabecalho where
  pedido_id : Nat
  cliente_nome : String
  cpf_cnpj : String
  valor_total : Rat
  forma_pagamento : String
deriving DecidableEq

/-- The coupon item rows: `Vendas` joined with `Produtos` for the
description. -/
structure CupomItem where
  descricao : String
  quantidade : Nat
  preco_unitario : Rat
  subtotal : Rat
deriving DecidableEq

/-- Result of `get_order_details_for_coupon`. -/
structure CupomDetalhes where
  header : CupomCabecalho
  items : List CupomItem
deriving DecidableEq

/-- The header `SELECT` of `get_order_details_for_coupon`
(`Pedidos LEFT JOIN Clientes`). -/
def consultaCabecalho (db : DB) (pid : Nat) : Option CupomCabecalho :=
  (encontrarPedido db pid).map (fun ped =>
    match db.clientes.find? (fun c => c.cliente_id == ped.cliente_id) with
    | some c => { pedido_id := ped.pedido_id, cliente_nome := c.nome,
                  cpf_cnpj := c.cpf_cnpj, valor_total := ped.valor_total,
                  forma_pagamento := ped.forma_pagamento }
    | none => { pedido_id := ped.pedido_id, cliente_nome := "",
                cpf_cnpj := "", valor_total := ped.valor_total,
                forma_pagamento := ped.forma_pagamento })

/-- The items `SELECT` of `get_order_details_for_coupon`
(`Vendas LEFT JOIN Produtos`). -/
def consultaItens (db : DB) (pid : Nat) : List CupomItem :=
  (vendasDoPedido db pid).map (fun v =>
    { descricao :=
        match encontrarProduto db v.produto_id with
        | some p => p.descricao
        | none => "",
      quantidade := v.quantidade, preco_unitario := v.preco_unitario,
      subtotal := v.subtotal })

/-- The fetch path of `execute_query` (a `SELECT` with `fetch=True`):
rows are read and returned; no statement mutates the database and no
commit is issued on it. -/
def executeQueryFetch {α : Type} (db : DB) (consulta : DB → α) : DB × α :=
  (db, consulta db)

/-- Fixed two-decimal rendering used for the `f"{x:.2f}"` money fields of
the coupon (rendered here as the integer number of hundredths). -/
def fmt2 (x : Rat) : String :=
  toString (Int.floor (x * 100))

/-- `generate_non_fiscal_coupon`: pure formatting of the fetched header
and items into the coupon document; no database access at all. -/
def generateNonFiscalCoupon (pid : Nat) (d : CupomDetalhes) : String :=
  let cab := "CUPOM NAO FISCAL | PEDIDO #" ++ toString pid ++
    " | CLIENTE: " ++ d.header.cliente_nome ++
    " | CPF/CNPJ: " ++ (if d.header.cpf_cnpj == "" then "Nao Informado" else d.header.cpf_cnpj)
  let linhas := d.items.map (fun it =>
    it.descricao ++ " | " ++ toString it.quantidade ++ " | " ++
    fmt2 it.preco_unitario ++ " | " ++ fmt2 it.subtotal)
  let rodape := "VALOR TOTAL: " ++ fmt2 d.header.valor_total ++
    " | FORMA PGTO: " ++ d.header.forma_pagamento
  String.intercalate " || " (cab :: linhas ++ [rodape])

/-- `get_order_details_for_coupon` followed by
`generate_non_fiscal_coupon`, with the gateway state threaded through
both `SELECT`s: the embedding of the whole coupon-printing action. -/
def emitirCupom (db : DB) (pid : Nat) : DB × Option String :=
  let r1 := executeQueryFetch db (fun d => consultaCabecalho d pid)
  let r2 := executeQueryFetch r1.1 (fun d => consultaItens d pid)
  match r1.2 with
  | none => (r2.1, none)
  | some cab =>
      (r2.1, some (generateNonFiscalCoupon pid { header := cab, items := r2.2 }))

/-- Python's `str.upper()` (ASCII case mapping, as the SQL text here is
ASCII). -/
def pyUpper (s : String) : String :=
  String.mk (s.data.map Char.toUpper)

/-- Whitespace test used by Python's `str.strip()`. -/
def ehEspaco (c : Char) : Bool :=
  c == ' ' || c == '\n' || c == '\t' || c == '\r'

/-- Python's `str.strip()`: drop leading and trailing whitespace. -/
def pyStrip (s : String) : String :=
  String.mk (((s.data.dropWhile ehEspaco).reverse.dropWhile ehEspaco).reverse)

/-- Python's `str.startswith(pre)`. -/
def pyStartsWith (s pre : String) : Bool :=
  pre.data.isPrefixOf s.data

/-- The cache-invalidation test of `execute_query`:
`sql.strip().upper().startswith("INSERT INTO Produtos")`, guarding the
only `get_db_connection_cached.clear()` call inside `execute_query`. -/
def clearsCacheSql (sql : String) : Bool :=
  pyStartsWith (pyUpper (pyStrip sql)) "INSERT INTO Produtos"

/-- One observable call a handler makes on the persistence gateway. -/
inductive Acao where
  | leitura : String → Acao
  | escrita : String → Acao
  | commitTx : Acao
  | limparCache : Acao
deriving DecidableEq

/-- Gateway calls of `execute_query` on a mutating statement: execute,
commit, then clear the read cache only when `clearsCacheSql` accepts the
statement text. -/
def traceExecuteQueryEscrita (sql : String) (tabela : String) : List Acao :=
  [Acao.escrita tabela, Acao.commitTx] ++
    (if clearsCacheSql sql then [Acao.limparCache] else [])

/-- The `INSERT INTO Produtos ...` statement of the new-product form,
with the leading whitespace of its triple-quoted source literal. -/
def sqlInsertProduto : String :=
  "\n                            INSERT INTO Produtos (codigo_sku, descricao, marca, preco_custo, preco_venda, estoque_atual, estoque_minimo, categoria_id, fornecedor_id, modelo_moto, ano_moto)\n                            VALUES (%s, %s, %s, %s, %s, %s, %s, %s, %s, %s, %s)\n                        "

/-- The price-update statement of the products form. -/
def sqlAtualizarPreco : String :=
  "UPDATE Produtos SET preco_custo = %s, preco_venda = %s WHERE produto_id = %s"

/-- Gateway calls of the new-product form handler (runs through
`execute_query`). -/
def traceCadastrarProduto : List Acao :=
  traceExecuteQueryEscrita sqlInsertProduto "Produtos"

/-- Gateway calls of the price-update handler (runs through
`execute_query`). -/
def traceAtualizarPreco : List Acao :=
  traceExecuteQueryEscrita sqlAtualizarPreco "Produtos"

/-- Gateway calls of the `Registrar Compra` handler: read the product,
insert the `Entradas` row, update the product, commit — it never calls
`get_db_connection_cached.clear()`. -/
def traceRegistrarCompra : List Acao :=
  [Acao.leitura "Produtos", Acao.escrita "Entradas",
   Acao.escrita "Produtos", Acao.commitTx]

/-- Gateway calls of the `Registrar Pedido` handler for a one-line order:
insert the header and the line, decrement the stock, commit, and then
clear the read cache. -/
def traceRegistrarPedido : List Acao :=
  [Acao.escrita "Pedidos", Acao.escrita "Vendas",
   Acao.escrita "Produtos", Acao.commitTx, Acao.limparCache]

/-- Gateway calls of the `Confirmar Devolução` handler: insert the
return row, optionally increment the stock, commit, and clear the read
cache. -/
def traceConfirmarDevolucao (retornar : Bool) : List Acao :=
  [Acao.escrita "Devolucoes"] ++
    (if retornar then [Acao.escrita "Produtos"] else []) ++
    [Acao.commitTx, Acao.limparCache]

/-- Whether a gateway trace writes the `Produtos` table. -/
def escreveProdutos (t : List Acao) : Bool :=
  t.contains (Acao.escrita "Produtos")

/-- Whether a gateway trace invalidates the cached catalog read. -/
def invalidaCache (t : List Acao) : Bool :=
  t.contains Acao.limparCache

/-- The cart line `Adicionar Item` builds for product `prod` (quantity
`qtd`, discount percentage `d`). -/
def itemDe (prod : Produto) (pid : Nat) (qtd : Nat) (d : Rat) : ItemVenda :=
  { produto_id := pid, quantidade := qtd,
    preco_unit_original := prod.preco_venda, desconto_perc := d,
    preco_unit := prod.preco_venda * (1 - d / 100),
    subtotal := prod.preco_venda * (1 - d / 100) * (qtd : Rat) }

/-- Whether a cart line's quantity exceeds the product's current stock
(the situation `commitOrder` is claimed to reject). -/
def abaixoDoEstoque (db : DB) (item : ItemVenda) : Bool :=
  match estoqueDe db item.produto_id with
  | some s => decide (s < (item.quantidade : Int))
  | none => false

/-- Scenario product with a single unit in stock. -/
def produtoDuplo : Produto :=
  { produto_id := 1, descricao := "pastilha",
    estoque_atual := 1, preco_custo := 4, preco_venda := 10 }

/-- Scenario: one product with a single unit in stock, and an empty
order history. -/
def dbCarrinhoDuplo : DB :=
  { produtos := [produtoDuplo],
    pedidos := [], vendas := [], devolucoes := [], entradas := [],
    clientes := [{ cliente_id := 1, nome := "Ana", cpf_cnpj := "111" }] }

/-- Scenario: the same unit of stock is added to the cart twice; both
`Adicionar Item` checks compare the single line against the full stock
and accept. -/
def carrinhoDuplo : List ItemVenda :=
  adicionarItem dbCarrinhoDuplo 1 1 0 (adicionarItem dbCarrinhoDuplo 1 1 0 [])

/-- Scenario: one product with two units in stock. -/
def dbCorrida : DB :=
  { produtos := [{ produto_id := 1, descricao := "vela",
                   estoque_atual := 2, preco_custo := 3, preco_venda := 10 }],
    pedidos := [], vendas := [], devolucoes := [], entradas := [],
    clientes := [{ cliente_id := 1, nome := "Bia", cpf_cnpj := "222" }] }

/-- Scenario: a cart for both units, built while stock was 2. -/
def carrinhoCorrida : List ItemVenda :=
  adicionarItem dbCorrida 1 2 0 []

/-- Scenario: the cart committed once — stock drops to 0. -/
def dbCorridaApos1 : DB :=
  registrarPedido dbCorrida 1 "Pix" carrinhoCorrida

/-- Scenario: an identically built cart (a second session that passed the
same advisory check) committed against the depleted stock. -/
def dbCorridaApos2 : DB :=
  registrarPedido dbCorridaApos1 1 "Pix" carrinhoCorrida

/-- Scenario: a completed order on which 5 units of product 1 were sold,
with no returns yet. -/
def dbDevolucao : DB :=
  { produtos := [{ produto_id := 1, descricao := "farol",
                   estoque_atual := 0, preco_custo := 2, preco_venda := 10 }],
    pedidos := [{ pedido_id := 1, cliente_id := 1, valor_total := 50,
                  status_pedido := StatusPedido.concluido, forma_pagamento := "Pix" }],
    vendas := [{ pedido_id := 1, produto_id := 1, quantidade := 5,
                 preco_unitario := 10, subtotal := 50, desconto := 0 }],
    devolucoes := [], entradas := [],
    clientes := [{ cliente_id := 1, nome := "Caio", cpf_cnpj := "333" }] }

/-- Scenario: 3 of the 5 units returned once. -/
def dbDevolucao1 : DB :=
  confirmarDevolucao dbDevolucao 1 1 3 "Novo" true

/-- Scenario: 3 more units returned for the same pair — 6 returned in
total against 5 sold. -/
def dbDevolucao2 : DB :=
  confirmarDevolucao dbDevolucao1 1 1 3 "Novo" true

/-- Scenario: a single order that is already cancelled. -/
def dbCancelado : DB :=
  { produtos := [],
    pedidos := [{ pedido_id := 7, cliente_id := 1, valor_total := 30,
                  status_pedido := StatusPedido.cancelado, forma_pagamento := "Pix" }],
    vendas := [], devolucoes := [], entradas := [], clientes := [] }

/-- Scenario product for the weighted-average-cost witness: prior stock
10 at prior cost 4. -/
def prodCompra : Produto :=
  { produto_id := 1, descricao := "oleo", estoque_atual := 10,
    preco_custo := 4, preco_venda := 10 }

/-- Scenario database holding `prodCompra`. -/
def dbCompra : DB :=
  { produtos := [prodCompra], pedidos := [], vendas := [], devolucoes := [],
    entradas := [], clientes := [] }

/-- Scenario product for the cart/total witness: stock 5, sale price 10. -/
def prodPedido : Produto :=
  { produto_id := 2, descricao := "corrente", estoque_atual := 5,
    preco_custo := 4, preco_venda := 10 }

/-- Scenario database holding `prodPedido`. -/
def dbPedido : DB :=
  { produtos := [prodPedido], pedidos := [], vendas := [], devolucoes := [],
    entradas := [],
    clientes := [{ cliente_id := 3, nome := "Dora", cpf_cnpj := "444" }] }

theorem find_produto_map (l : List Produto) (h : Produto → Produto)
    (hh : ∀ p, (h p).produto_id = p.produto_id) (x : Nat) :
    (l.map h).find? (fun p => p.produto_id == x) =
      (l.find? (fun p => p.produto_id == x)).map h := by
  induction l with
  | nil => rfl
  | cons a t ih =>
    simp only [List.map_cons, List.find?, hh a]
    cases hb : (a.produto_id == x) with
    | true => rfl
    | false => exact ih

theorem encontrarProduto_atualizar (db : DB) (pid : Nat) (g : Produto → Produto)
    (hg : ∀ p, (g p).produto_id = p.produto_id) (x : Nat) :
    encontrarProduto (atualizarProduto db pid g) x =
      (encontrarProduto db x).map
        (fun p => if p.produto_id == pid then g p else p) := by
  unfold encontrarProduto atualizarProduto
  refine find_produto_map db.produtos _ (fun p => ?_) x
  by_cases h : (p.produto_id == pid) <;> simp [h, hg]

theorem estoqueDe_atualizar (db : DB) (pid : Nat) (g : Produto → Produto)
    (hg : ∀ p, (g p).produto_id = p.produto_id) (x : Nat) :
    estoqueDe (atualizarProduto db pid g) x =
      if x = pid then (encontrarProduto db x).map (fun p => (g p).estoque_atual)
      else estoqueDe db x := by
  unfold estoqueDe
  rw [encontrarProduto_atualizar db pid g hg x]
  cases hf : encontrarProduto db x with
  | none => simp
  | some p =>
    have hp : p.produto_id = x := by
      have h2 := List.find?_some hf
      exact beq_iff_eq.mp h2
    by_cases hx : x = pid
    · simp [hx, hp]
    · simp [hp, hx]

theorem custoDe_atualizar (db : DB) (pid : Nat) (g : Produto → Produto)
    (hg : ∀ p, (g p).produto_id = p.produto_id) (x : Nat) :
    custoDe (atualizarProduto db pid g) x =
      if x = pid then (encontrarProduto db x).map (fun p => (g p).preco_custo)
      else custoDe db x := by
  unfold custoDe
  rw [encontrarProduto_atualizar db pid g hg x]
  cases hf : encontrarProduto db x with
  | none => simp
  | some p =>
    have hp : p.produto_id = x := by
      have h2 := List.find?_some hf
      exact beq_iff_eq.mp h2
    by_cases hx : x = pid
    · simp [hx, hp]
    · simp [hp, hx]

theorem passoItem_pedidos (pid : Nat) (acc : DB) (item : ItemVenda) :
    (passoItem pid acc item).pedidos = acc.pedidos := rfl

theorem passoItem_vendas (pid : Nat) (acc : DB) (item : ItemVenda) :
    (passoItem pid acc item).vendas = acc.vendas ++ [vendaDoItem pid item] := rfl

theorem foldl_passo_pedidos (pid : Nat) (l : List ItemVenda) :
    ∀ acc : DB, (l.foldl (passoItem pid) acc).pedidos = acc.pedidos := by
  induction l with
  | nil => intro acc; rfl
  | cons a t ih => intro acc; rw [List.foldl_cons, ih, passoItem_pedidos]

theorem foldl_passo_vendas (pid : Nat) (l : List ItemVenda) :
    ∀ acc : DB, (l.foldl (passoItem pid) acc).vendas =
      acc.vendas ++ l.map (vendaDoItem pid) := by
  induction l with
  | nil => intro acc; simp
  | cons a t ih =>
    intro acc
    rw [List.foldl_cons, ih, passoItem_vendas, List.map_cons, List.append_assoc,
      List.singleton_append]

theorem qtdNoCarrinho_nil (x : Nat) : qtdNoCarrinho [] x = 0 := rfl

theorem qtdNoCarrinho_cons (a : ItemVenda) (t : List ItemVenda) (x : Nat) :
    qtdNoCarrinho (a :: t) x =
      (if a.produto_id = x then a.quantidade else 0) + qtdNoCarrinho t x := by
  unfold qtdNoCarrinho
  by_cases h : a.produto_id = x
  · simp [List.filter_cons, h]
  · simp [List.filter_cons, h]

theorem encontrarProduto_set_vendas (acc : DB) (vs : List Venda) (x : Nat) :
    encontrarProduto { acc with vendas := vs } x = encontrarProduto acc x := rfl

theorem estoqueDe_passoItem (pid : Nat) (acc : DB) (item : ItemVenda) (x : Nat) :
    estoqueDe (passoItem pid acc item) x =
      (estoqueDe acc x).map
        (fun s => s - (if item.produto_id = x then (item.quantidade : Int) else 0)) := by
  unfold passoItem
  rw [estoqueDe_atualizar _ item.produto_id
    (fun p => { p with estoque_atual := p.estoque_atual - (item.quantidade : Int) })
    (fun p => rfl) x]
  by_cases hx : x = item.produto_id
  · rw [if_pos hx]
    subst hx
    simp only [estoqueDe, encontrarProduto_set_vendas]
    cases hf : encontrarProduto acc item.produto_id <;>
      simp [hf, Function.comp]
  · rw [if_neg hx]
    have hx' : ¬(item.produto_id = x) := fun h => hx h.symm
    simp only [estoqueDe, encontrarProduto_set_vendas]
    cases hf : encontrarProduto acc x <;> simp [hf, hx']

theorem foldl_passo_estoque (pid : Nat) (l : List ItemVenda) :
    ∀ (acc : DB) (x : Nat), estoqueDe (l.foldl (passoItem pid) acc) x =
      (estoqueDe acc x).map (fun s => s - (qtdNoCarrinho l x : Int)) := by
  induction l with
  | nil =>
    intro acc x
    rw [List.foldl_nil]
    cases hf : estoqueDe acc x
    · rfl
    · simp [qtdNoCarrinho_nil]
  | cons a t ih =>
    intro acc x
    rw [List.foldl_cons, ih, estoqueDe_passoItem, qtdNoCarrinho_cons]
    cases hf : estoqueDe acc x with
    | none => rfl
    | some s =>
      simp only [Option.map_some']
      congr 1
      by_cases h : a.produto_id = x
      · simp only [h, if_pos]
        push_cast
        ring
      · simp [h]

theorem registrarPedido_pedidos (db : DB) (c : Nat) (f : String)
    (l : List ItemVenda) :
    (registrarPedido db c f l).pedidos =
      db.pedidos ++ [pedidoNovo db c f l] := by
  unfold registrarPedido
  rw [foldl_passo_pedidos]

theorem registrarPedido_vendas (db : DB) (c : Nat) (f : String)
    (l : List ItemVenda) :
    (registrarPedido db c f l).vendas =
      db.vendas ++ l.map (vendaDoItem (proximoPedidoId db)) := by
  unfold registrarPedido
  rw [foldl_passo_vendas]

theorem registrarPedido_estoque (db : DB) (c : Nat) (f : String)
    (l : List ItemVenda) (x : Nat) :
    estoqueDe (registrarPedido db c f l) x =
      (estoqueDe db x).map (fun s => s - (qtdNoCarrinho l x : Int)) := by
  unfold registrarPedido
  rw [foldl_passo_estoque]
  rfl

theorem mem_le_foldr_max (l : List Nat) (a : Nat) (h : a ∈ l) :
    a ≤ l.foldr max 0 := by
  induction l with
  | nil => cases h
  | cons b t ih =>
    rcases List.mem_cons.mp h with hb | ht
    · rw [hb, List.foldr_cons]
      exact Nat.le_max_left _ _
    · rw [List.foldr_cons]
      exact le_trans (ih ht) (Nat.le_max_right _ _)

theorem pedidoId_lt_proximo (db : DB) (v : Venda) (hv : v ∈ db.vendas)
    (h : refsValidas db) : v.pedido_id < proximoPedidoId db := by
  have hm := h v hv
  have := mem_le_foldr_max _ _ hm
  unfold proximoPedidoId
  omega

theorem vendasDoPedido_registrar (db : DB) (c : Nat) (f : String)
    (l : List ItemVenda) (h : refsValidas db) :
    vendasDoPedido (registrarPedido db c f l) (proximoPedidoId db) =
      l.map (vendaDoItem (proximoPedidoId db)) := by
  unfold vendasDoPedido
  rw [registrarPedido_vendas, List.filter_append]
  have h1 : db.vendas.filter (fun v => v.pedido_id == proximoPedidoId db) = [] := by
    rw [List.filter_eq_nil_iff]
    intro v hv
    have := pedidoId_lt_proximo db v hv h
    simp only [beq_iff_eq]
    omega
  have h2 : (l.map (vendaDoItem (proximoPedidoId db))).filter
      (fun v => v.pedido_id == proximoPedidoId db) =
      l.map (vendaDoItem (proximoPedidoId db)) := by
    rw [List.filter_eq_self]
    intro v hv
    rcases List.mem_map.mp hv with ⟨i, _, hi⟩
    rw [← hi]
    simp [vendaDoItem]
  rw [h1, h2, List.nil_append]

theorem subtotais_das_vendas (pid : Nat) (l : List ItemVenda) :
    ((l.map (vendaDoItem pid)).map Venda.subtotal).sum =
      (l.map ItemVenda.subtotal).sum := by
  rw [List.map_map]
  rfl

theorem find_pedido_map (l : List Pedido) (h : Pedido → Pedido)
    (hh : ∀ p, (h p).pedido_id = p.pedido_id) (x : Nat) :
    (l.map h).find? (fun p => p.pedido_id == x) =
      (l.find? (fun p => p.pedido_id == x)).map h := by
  induction l with
  | nil => rfl
  | cons a t ih =>
    simp only [List.map_cons, List.find?, hh a]
    cases hb : (a.pedido_id == x) with
    | true => rfl
    | false => exact ih

theorem statusDe_marcar (db : DB) (ids : List Nat) (alvo : StatusPedido) (x : Nat) :
    statusDe (marcarStatus db ids alvo) x =
      if ids.contains x then (statusDe db x).map (fun _ => alvo)
      else statusDe db x := by
  unfold statusDe encontrarPedido marcarStatus
  rw [find_pedido_map _ _ (fun p => by split <;> rfl) x]
  cases hf : db.pedidos.find? (fun p => p.pedido_id == x) with
  | none => simp
  | some p =>
    have h2 := List.find?_some hf
    have hp : p.pedido_id = x := beq_iff_eq.mp h2
    by_cases hc : ids.contains x
    · have hm : x ∈ ids := by simpa using hc
      simp [hp, hc, hm]
    · have hm : x ∉ ids := by simpa using hc
      simp [hp, hc, hm]

theorem marcarStatus_dup (db : DB) (i : Nat) (ids : List Nat) (alvo : StatusPedido) :
    marcarStatus db (i :: i :: ids) alvo = marcarStatus db (i :: ids) alvo := by
  unfold marcarStatus
  congr 1
  apply List.map_congr_left
  intro p _
  have hc : (i :: i :: ids).contains p.pedido_id = (i :: ids).contains p.pedido_id := by
    simp [List.contains_cons]
  rw [hc]

theorem encontrarProduto_set_devolucoes (db : DB) (ds : List Devolucao) (x : Nat) :
    encontrarProduto { db with devolucoes := ds } x = encontrarProduto db x := rfl

theorem estoqueDe_confirmarDevolucao (db : DB) (pe pr : Nat) (qtd : Nat)
    (estadoFinal : String) (retornar : Bool) :
    estoqueDe (confirmarDevolucao db pe pr qtd estadoFinal retornar) pr =
      (estoqueDe db pr).map
        (fun s => s + (if retornar then (qtd : Int) else 0)) := by
  unfold confirmarDevolucao
  cases retornar with
  | false =>
    simp only [Bool.false_eq_true, if_false]
    have hd : estoqueDe { db with devolucoes :=
        db.devolucoes ++ [{ pedido_id := pe, produto_id := pr, quantidade := qtd,
                            estado_produto := estadoFinal,
                            retornou_estoque := false }] } pr = estoqueDe db pr := rfl
    rw [hd]
    cases hf : estoqueDe db pr <;> simp [hf]
  | true =>
    simp only [if_pos, if_true]
    rw [estoqueDe_atualizar _ pr
      (fun p => { p with estoque_atual := p.estoque_atual + (qtd : Int) })
      (fun p => rfl) pr, if_pos rfl]
    rw [encontrarProduto_set_devolucoes]
    unfold estoqueDe
    cases hf : encontrarProduto db pr <;> simp [hf]

theorem encontrarProduto_set_entradas (db : DB) (es : List Entrada) (x : Nat) :
    encontrarProduto { db with entradas := es } x = encontrarProduto db x := rfl

theorem round4_int (x : Rat) (k : Int) (h : x * 10000 = (k : Rat)) :
    round4 x = x := by
  unfold round4
  simp only [h, Rat.num_intCast, Rat.den_intCast]
  rw [Int.natCast_one, Int.fdiv_one, Int.fmod_one]
  have h2 : (2 : Int) * 0 < 1 := by norm_num
  rw [if_pos h2]
  have h10 : (10000 : Rat) ≠ 0 := by norm_num
  field_simp
  linarith [h]

theorem somaDevolvida_confirmar (db : DB) (pe pr : Nat) (qtd : Nat)
    (estadoFinal : String) (retornar : Bool) :
    somaDevolvida (confirmarDevolucao db pe pr qtd estadoFinal retornar) pe pr =
      somaDevolvida db pe pr + qtd := by
  unfold confirmarDevolucao somaDevolvida
  have hdev : (confirmarDevolucao db pe pr qtd estadoFinal retornar).devolucoes =
      db.devolucoes ++ [{ pedido_id := pe, produto_id := pr, quantidade := qtd,
                          estado_produto := estadoFinal,
                          retornou_estoque := retornar }] := by
    unfold confirmarDevolucao
    cases retornar <;> rfl
  cases retornar <;>
    simp [List.filter_append, List.filter_cons, atualizarProduto]

theorem adicionarItem_spec (db : DB) (pid : Nat) (qtd : Nat) (d : Rat)
    (carrinho : List ItemVenda) (prod : Produto)
    (hfind : encontrarProduto db pid = some prod) :
    adicionarItem db pid qtd d carrinho =
      if (qtd : Int) > prod.estoque_atual then carrinho
      else carrinho ++ [itemDe prod pid qtd d] := by
  unfold adicionarItem
  rw [hfind]
  rfl

theorem registrarCompra_of_find (db : DB) (pid fid : Nat) (qtd : Nat)
    (v : Rat) (prod : Produto) (hfind : encontrarProduto db pid = some prod) :
    registrarCompra db pid fid qtd v =
      atualizarProduto
        { db with entradas :=
            db.entradas ++ [{ produto_id := pid, fornecedor_id := fid,
                              quantidade_comprada := qtd,
                              valor_unitario_compra := v }] } pid
        (fun p => { p with
          estoque_atual := prod.estoque_atual + (qtd : Int),
          preco_custo := round4
            (if 0 < prod.estoque_atual + (qtd : Int) then
              ((prod.estoque_atual : Rat) * prod.preco_custo + (qtd : Rat) * v) /
                ((prod.estoque_atual + (qtd : Int) : Int) : Rat)
            else v) }) := by
  unfold registrarCompra
  rw [hfind]

theorem registrarCompra_estoque (db : DB) (pid fid : Nat) (qtd : Nat)
    (v : Rat) (prod : Produto) (hfind : encontrarProduto db pid = some prod) :
    estoqueDe (registrarCompra db pid fid qtd v) pid =
      some (prod.estoque_atual + (qtd : Int)) := by
  rw [registrarCompra_of_find db pid fid qtd v prod hfind]
  rw [estoqueDe_atualizar _ pid
    (fun p => { p with
      estoque_atual := prod.estoque_atual + (qtd : Int),
      preco_custo := round4
        (if 0 < prod.estoque_atual + (qtd : Int) then
          ((prod.estoque_atual : Rat) * prod.preco_custo + (qtd : Rat) * v) /
            ((prod.estoque_atual + (qtd : Int) : Int) : Rat)
        else v) })
    (fun p => rfl) pid, if_pos rfl]
  rw [encontrarProduto_set_entradas, hfind]
  rfl

theorem registrarCompra_custo (db : DB) (pid fid : Nat) (qtd : Nat)
    (v : Rat) (prod : Produto) (hfind : encontrarProduto db pid = some prod)
    (hq : 1 ≤ qtd) (hs : 0 ≤ prod.estoque_atual) :
    custoDe (registrarCompra db pid fid qtd v) pid =
      some (round4 (((prod.estoque_atual : Rat) * prod.preco_custo +
        (qtd : Rat) * v) / ((prod.estoque_atual : Rat) + (qtd : Rat)))) := by
  rw [registrarCompra_of_find db pid fid qtd v prod hfind]
  rw [custoDe_atualizar _ pid
    (fun p => { p with
      estoque_atual := prod.estoque_atual + (qtd : Int),
      preco_custo := round4
        (if 0 < prod.estoque_atual + (qtd : Int) then
          ((prod.estoque_atual : Rat) * prod.preco_custo + (qtd : Rat) * v) /
            ((prod.estoque_atual + (qtd : Int) : Int) : Rat)
        else v) })
    (fun p => rfl) pid, if_pos rfl]
  rw [encontrarProduto_set_entradas, hfind]
  have hpos : (0 : Int) < prod.estoque_atual + (qtd : Int) := by omega
  simp only [Option.map_some', if_pos hpos]
  congr 2
  push_cast
  ring

theorem qtd_item_le_carrinho (carrinho : List ItemVenda) (item : ItemVenda)
    (h : item ∈ carrinho) :
    item.quantidade ≤ qtdNoCarrinho carrinho item.produto_id := by
  induction carrinho with
  | nil => cases h
  | cons a t ih =>
    rw [qtdNoCarrinho_cons]
    rcases List.mem_cons.mp h with ha | ht
    · rw [← ha]
      simp
    · exact le_trans (ih ht) (Nat.le_add_left _ _)

/-- C1 counterexample: from stock 1, adding the same single unit to the
cart twice passes the advisory check both times (each line is compared
against the full stock on its own), and committing the cart drives the
stock to `-1` with the order committed — no decrement was rejected, so
stock does not remain non-negative over sequences of operations. -/
theorem estoque_negativo_contraexemplo :
    estoqueDe dbCarrinhoDuplo 1 = some 1 ∧
    carrinhoDuplo.length = 2 ∧
    estoqueDe (registrarPedido dbCarrinhoDuplo 1 "Pix" carrinhoDuplo) 1 =
      some (-1) ∧
    (registrarPedido dbCarrinhoDuplo 1 "Pix" carrinhoDuplo).pedidos.length = 1 := by
  decide

/-- C1 (amended): the only stock guard is the advisory one at cart-build
time — a single `Adicionar Item` whose quantity exceeds the stock read
from the catalog is rejected with the cart unchanged, and one within
that stock is appended; the commit-time decrement is unconditional, so
after `Registrar Pedido` the product's stock is the prior stock minus
the cart's total quantity for it, which may be negative. -/
theorem estoque_guarda_apenas_no_carrinho (db : DB) (pid : Nat) (qtd : Nat)
    (d : Rat) (carrinho : List ItemVenda) (prod : Produto) (c : Nat) (f : String)
    (hfind : encontrarProduto db pid = some prod) :
    ((qtd : Int) > prod.estoque_atual →
      adicionarItem db pid qtd d carrinho = carrinho) ∧
    ((qtd : Int) ≤ prod.estoque_atual →
      adicionarItem db pid qtd d carrinho = carrinho ++ [itemDe prod pid qtd d]) ∧
    estoqueDe (registrarPedido db c f carrinho) pid =
      (estoqueDe db pid).map (fun s => s - (qtdNoCarrinho carrinho pid : Int)) := by
  refine ⟨?_, ?_, ?_⟩
  · intro h
    rw [adicionarItem_spec db pid qtd d carrinho prod hfind, if_pos h]
  · intro h
    rw [adicionarItem_spec db pid qtd d carrinho prod hfind, if_neg (not_lt.mpr h)]
  · exact registrarPedido_estoque db c f carrinho pid

/-- C1 witness: the amended statement evaluated on the scenario state —
quantity 2 exceeds the single unit in stock, so the add is rejected,
and committing the two-line cart subtracts its total quantity. -/
theorem estoque_guarda_apenas_no_carrinho_witness :
    (((2 : Nat) : Int) > produtoDuplo.estoque_atual →
      adicionarItem dbCarrinhoDuplo 1 2 0 carrinhoDuplo = carrinhoDuplo) ∧
    (((2 : Nat) : Int) ≤ produtoDuplo.estoque_atual →
      adicionarItem dbCarrinhoDuplo 1 2 0 carrinhoDuplo =
        carrinhoDuplo ++ [itemDe produtoDuplo 1 2 0]) ∧
    estoqueDe (registrarPedido dbCarrinhoDuplo 1 "Pix" carrinhoDuplo) 1 =
      (estoqueDe dbCarrinhoDuplo 1).map
        (fun s => s - (qtdNoCarrinho carrinhoDuplo 1 : Int)) :=
  estoque_guarda_apenas_no_carrinho dbCarrinhoDuplo 1 2 0 carrinhoDuplo
    produtoDuplo 1 "Pix" (by decide)

/-- C2 counterexample: a cart for 2 units built while stock was 2, after
a first commit depleted the stock to 0, is committed again — its line's
quantity (2) exceeds current stock (0), yet no `InsufficientStockError`
occurs: the second order is inserted and stock drops to `-2`, instead of
the claimed full rollback with all tables unchanged. -/
theorem pedido_sem_estoque_commita_contraexemplo :
    (∃ item ∈ carrinhoCorrida, abaixoDoEstoque dbCorridaApos1 item = true) ∧
    dbCorridaApos1.pedidos.length = 1 ∧
    dbCorridaApos2.pedidos.length = 2 ∧
    dbCorridaApos2.vendas.length = 2 ∧
    estoqueDe dbCorridaApos2 1 = some (-2) := by
  decide

/-- C2 (amended): `Registrar Pedido` performs no commit-time stock
check — even when some line's quantity exceeds that product's current
stock, the order header and all lines are inserted and every decrement
is applied, leaving that product's stock negative. -/
theorem registrarPedido_sem_verificacao_de_estoque (db : DB) (c : Nat)
    (f : String) (carrinho : List ItemVenda)
    (h : ∃ item ∈ carrinho, abaixoDoEstoque db item = true) :
    (registrarPedido db c f carrinho).pedidos =
      db.pedidos ++ [pedidoNovo db c f carrinho] ∧
    (registrarPedido db c f carrinho).vendas =
      db.vendas ++ carrinho.map (vendaDoItem (proximoPedidoId db)) ∧
    ∃ item ∈ carrinho, ∃ s : Int,
      estoqueDe (registrarPedido db c f carrinho) item.produto_id = some s ∧
      s < 0 := by
  refine ⟨registrarPedido_pedidos db c f carrinho,
    registrarPedido_vendas db c f carrinho, ?_⟩
  rcases h with ⟨item, hmem, hb⟩
  refine ⟨item, hmem, ?_⟩
  cases hf : estoqueDe db item.produto_id with
  | none => simp [abaixoDoEstoque, hf] at hb
  | some s =>
    simp only [abaixoDoEstoque, hf, decide_eq_true_eq] at hb
    refine ⟨s - (qtdNoCarrinho carrinho item.produto_id : Int), ?_, ?_⟩
    · rw [registrarPedido_estoque, hf]
      rfl
    · have h1 := qtd_item_le_carrinho carrinho item hmem
      have h2 : (item.quantidade : Int) ≤
          (qtdNoCarrinho carrinho item.produto_id : Int) := by exact_mod_cast h1
      omega

/-- C2 witness: the amended statement evaluated on the depleted scenario
state, whose cart holds a line of quantity 2 against stock 0. -/
theorem registrarPedido_sem_verificacao_de_estoque_witness :
    (registrarPedido dbCorridaApos1 1 "Pix" carrinhoCorrida).pedidos =
      dbCorridaApos1.pedidos ++ [pedidoNovo dbCorridaApos1 1 "Pix" carrinhoCorrida] ∧
    (registrarPedido dbCorridaApos1 1 "Pix" carrinhoCorrida).vendas =
      dbCorridaApos1.vendas ++
        carrinhoCorrida.map (vendaDoItem (proximoPedidoId dbCorridaApos1)) ∧
    ∃ item ∈ carrinhoCorrida, ∃ s : Int,
      estoqueDe (registrarPedido dbCorridaApos1 1 "Pix" carrinhoCorrida)
        item.produto_id = some s ∧ s < 0 :=
  registrarPedido_sem_verificacao_de_estoque dbCorridaApos1 1 "Pix"
    carrinhoCorrida (by decide)

/-- C3 counterexample: with 5 units of product 1 sold on completed order
1, a return of 3 is accepted and committed twice — the second submission
still satisfies the form's only bound (1..5) because prior returns are
never summed, so 6 units end up returned against 5 sold instead of the
claimed `OverReturnError` with nothing committed. -/
theorem devolucao_acima_do_vendido_contraexemplo :
    qtdVendida dbDevolucao 1 1 = some 5 ∧
    qtdDevolucaoAceita dbDevolucao 1 1 3 = true ∧
    qtdDevolucaoAceita dbDevolucao1 1 1 3 = true ∧
    dbDevolucao2.devolucoes.length = 2 ∧
    somaDevolvida dbDevolucao2 1 1 = 6 := by
  decide

/-- C3 (amended): the return form bounds each single return by the
quantity originally sold on the selected line and by 1 from below, but
it never consults prior returns; any quantity within that single-line
bound is recorded and committed, adding to the pair's cumulative
returned quantity, which can therefore exceed the quantity sold. -/
theorem devolucao_limite_por_linha_apenas (db : DB) (pe pr : Nat) (q : Nat)
    (estadoFinal : String) (retornar : Bool)
    (h : qtdDevolucaoAceita db pe pr q = true) :
    (∃ s, qtdVendida db pe pr = some s ∧ 1 ≤ q ∧ q ≤ s) ∧
    somaDevolvida (confirmarDevolucao db pe pr q estadoFinal retornar) pe pr =
      somaDevolvida db pe pr + q := by
  refine ⟨?_, somaDevolvida_confirmar db pe pr q estadoFinal retornar⟩
  cases hf : qtdVendida db pe pr with
  | none => simp [qtdDevolucaoAceita, hf] at h
  | some s =>
    simp only [qtdDevolucaoAceita, hf, decide_eq_true_eq] at h
    exact ⟨s, rfl, h⟩

/-- C3 witness: the amended statement evaluated on the scenario with a
return of 3 already recorded — the second return of 3 is accepted and
drives the cumulative total to 6. -/
theorem devolucao_limite_por_linha_apenas_witness :
    (∃ s, qtdVendida dbDevolucao1 1 1 = some s ∧ 1 ≤ 3 ∧ 3 ≤ s) ∧
    somaDevolvida (confirmarDevolucao dbDevolucao1 1 1 3 "Novo" true) 1 1 =
      somaDevolvida dbDevolucao1 1 1 + 3 :=
  devolucao_limite_por_linha_apenas dbDevolucao1 1 1 3 "Novo" true (by decide)

/-- C4 counterexample: order 7 is Cancelado; selecting it and pressing
the complete button runs the bulk `UPDATE`, which carries no
`status_pedido = 'Pendente'` filter — the cancelled order's status is
overwritten to Concluído instead of being silently skipped. -/
theorem transicao_atualiza_cancelado_contraexemplo :
    statusDe dbCancelado 7 = some StatusPedido.cancelado ∧
    statusDe (marcarStatus dbCancelado [7] StatusPedido.concluido) 7 =
      some StatusPedido.concluido := by
  decide

/-- C4 (amended): the bulk update sets the status of every order whose
id is in the selected list, regardless of its current status, and leaves
every other order unchanged; listing the same id twice changes nothing,
so a Pending order transitions exactly once. -/
theorem marcarStatus_atualiza_selecionados (db : DB) (ids : List Nat)
    (alvo : StatusPedido) (x : Nat) (i : Nat) :
    (statusDe (marcarStatus db ids alvo) x =
      if ids.contains x then (statusDe db x).map (fun _ => alvo)
      else statusDe db x) ∧
    marcarStatus db (i :: i :: ids) alvo = marcarStatus db (i :: ids) alvo :=
  ⟨statusDe_marcar db ids alvo x, marcarStatus_dup db i ids alvo⟩

/-- C10: a quantity the return form accepts always lies between 1 and
the quantity originally sold on the selected `(order, product)` line —
the widget's `min_value=1`/`max_value=quantidade` bounds — and the
acceptance test is independent of recorded returns: it reads only the
`Vendas` line, never the `Devolucoes` table. -/
theorem devolucao_unica_entre_1_e_vendido (db : DB) (pe pr : Nat) (q : Nat)
    (h : qtdDevolucaoAceita db pe pr q = true) :
    (∃ s, qtdVendida db pe pr = some s ∧ 1 ≤ q ∧ q ≤ s) ∧
    (∀ devs : List Devolucao,
      qtdDevolucaoAceita { db with devolucoes := devs } pe pr q = true) := by
  constructor
  · cases hf : qtdVendida db pe pr with
    | none => simp [qtdDevolucaoAceita, hf] at h
    | some s =>
      simp only [qtdDevolucaoAceita, hf, decide_eq_true_eq] at h
      exact ⟨s, rfl, h⟩
  · intro devs
    exact h

/-- C10 witness: a return of 3 against 5 sold is accepted, bounded by
the sold quantity, and equally accepted regardless of recorded returns. -/
theorem devolucao_unica_entre_1_e_vendido_witness :
    (∃ s, qtdVendida dbDevolucao 1 1 = some s ∧ 1 ≤ 3 ∧ 3 ≤ s) ∧
    (∀ devs : List Devolucao,
      qtdDevolucaoAceita { dbDevolucao with devolucoes := devs } 1 1 3 = true) :=
  devolucao_unica_entre_1_e_vendido dbDevolucao 1 1 3 (by decide)

/-- C8: the `retornar_estoque` checkbox defaults to true exactly for the
New condition (the submitted value may override it), the stock is
incremented by the returned quantity exactly when the flag is set, and
the `Devolucoes` insert and the increment run in one transaction: every
outcome of the two statements leaves the database either unchanged or
with both effects applied. -/
theorem devolucao_condicao_incremento_atomico :
    (∀ estado_produto : String,
      padraoRetornarEstoque estado_produto = true ↔
        estado_produto = "Novo / Perfeito Estado") ∧
    mapaEstado "Novo / Perfeito Estado" = some "Novo" ∧
    (∀ (db : DB) (pe pr : Nat) (qtd : Nat) (estadoFinal : String) (retornar : Bool),
      estoqueDe (confirmarDevolucao db pe pr qtd estadoFinal retornar) pr =
        (estoqueDe db pr).map
          (fun s => s + (if retornar then (qtd : Int) else 0))) ∧
    (∀ (db : DB) (pe pr : Nat) (qtd : Nat) (estadoFinal : String)
        (retornar okInsert okIncremento : Bool),
      confirmarDevolucaoTx db pe pr qtd estadoFinal retornar okInsert okIncremento
          = db ∨
      confirmarDevolucaoTx db pe pr qtd estadoFinal retornar okInsert okIncremento
          = confirmarDevolucao db pe pr qtd estadoFinal retornar) := by
  refine ⟨?_, by decide, estoqueDe_confirmarDevolucao, ?_⟩
  · intro estado_produto
    constructor
    · intro h
      exact beq_iff_eq.mp h
    · intro h
      exact beq_iff_eq.mpr h
  · intro db pe pr qtd estadoFinal retornar okInsert okIncremento
    cases okInsert with
    | false => exact Or.inl rfl
    | true =>
      cases retornar with
      | false => exact Or.inr rfl
      | true =>
        cases okIncremento with
        | false => exact Or.inl rfl
        | true => exact Or.inr rfl

/-- C9: coupon generation is a pure read-and-format over the order's
header and lines — the gateway state after generating is the state
before, and generating twice for the same order yields identical
output. -/
theorem cupom_puro_e_idempotente :
    ∀ (db : DB) (pid : Nat),
      (emitirCupom db pid).1 = db ∧
      (emitirCupom (emitirCupom db pid).1 pid).2 = (emitirCupom db pid).2 := by
  intro db pid
  have h1 : (emitirCupom db pid).1 = db := by
    unfold emitirCupom executeQueryFetch
    cases h : consultaCabecalho db pid <;> simp [h]
  exact ⟨h1, by rw [h1]⟩

/-- C7: product writes do not invalidate the cached catalog read.  The
guard in `execute_query` upper-cases the SQL text and then tests it
against the mixed-case "INSERT INTO Produtos", so it never fires — the
new-product insert and the price update clear nothing — and the
`Registrar Compra` handler commits its product `UPDATE` without any
clear call; only the order-commit and return handlers invalidate. -/
theorem escritas_de_produto_sem_invalidar_cache :
    clearsCacheSql sqlInsertProduto = false ∧
    clearsCacheSql sqlAtualizarPreco = false ∧
    escreveProdutos traceCadastrarProduto = true ∧
    invalidaCache traceCadastrarProduto = false ∧
    invalidaCache traceAtualizarPreco = false ∧
    escreveProdutos traceRegistrarCompra = true ∧
    invalidaCache traceRegistrarCompra = false ∧
    invalidaCache traceRegistrarPedido = true ∧
    invalidaCache (traceConfirmarDevolucao true) = true := by
  decide

/-- C5: applying a receipt of `qtd > 0` units at unit cost `v ≥ 0` to an
existing product with prior stock `q0 ≥ 0` and prior cost `c0` sets the
stock to `q0 + qtd` and the cost to
`round4 ((q0*c0 + qtd*v) / (q0 + qtd))`; when the prior stock is zero
and `v` has at most four decimal places, the new cost is exactly the
receipt's unit cost. -/
theorem compra_custo_medio_ponderado (db : DB) (pid fid : Nat) (qtd : Nat)
    (v : Rat) (prod : Produto) (hfind : encontrarProduto db pid = some prod)
    (hq : 1 ≤ qtd) (hs : 0 ≤ prod.estoque_atual) (hv : 0 ≤ v) :
    estoqueDe (registrarCompra db pid fid qtd v) pid =
      some (prod.estoque_atual + (qtd : Int)) ∧
    custoDe (registrarCompra db pid fid qtd v) pid =
      some (round4 (((prod.estoque_atual : Rat) * prod.preco_custo +
        (qtd : Rat) * v) / ((prod.estoque_atual : Rat) + (qtd : Rat)))) ∧
    (prod.estoque_atual = 0 → (∃ k : Int, v * 10000 = (k : Rat)) →
      custoDe (registrarCompra db pid fid qtd v) pid = some v) := by
  refine ⟨registrarCompra_estoque db pid fid qtd v prod hfind,
    registrarCompra_custo db pid fid qtd v prod hfind hq hs, ?_⟩
  intro h0 hk
  rcases hk with ⟨k, hk⟩
  rw [registrarCompra_custo db pid fid qtd v prod hfind hq hs, h0]
  have hqne : ((qtd : Rat)) ≠ 0 := by
    have : (0 : Nat) < qtd := hq
    exact_mod_cast Nat.pos_iff_ne_zero.mp this
  have hsimp : (((0 : Int) : Rat) * prod.preco_custo + (qtd : Rat) * v) /
      (((0 : Int) : Rat) + (qtd : Rat)) = v := by
    rw [Int.cast_zero, zero_mul, zero_add, zero_add,
      mul_div_cancel_left₀ v hqne]
  rw [hsimp, round4_int v k hk]

/-- C5 witness: receiving 10 units at cost 5 into prior stock 10 at
prior cost 4 sets stock 20 and cost `round4 ((10*4 + 10*5)/(10+10))`. -/
theorem compra_custo_medio_ponderado_witness :
    estoqueDe (registrarCompra dbCompra 1 2 10 5) 1 =
      some (prodCompra.estoque_atual + ((10 : Nat) : Int)) ∧
    custoDe (registrarCompra dbCompra 1 2 10 5) 1 =
      some (round4 (((prodCompra.estoque_atual : Rat) * prodCompra.preco_custo +
        ((10 : Nat) : Rat) * 5) /
        ((prodCompra.estoque_atual : Rat) + ((10 : Nat) : Rat)))) ∧
    (prodCompra.estoque_atual = 0 → (∃ k : Int, (5 : Rat) * 10000 = (k : Rat)) →
      custoDe (registrarCompra dbCompra 1 2 10 5) 1 = some 5) :=
  compra_custo_medio_ponderado dbCompra 1 2 10 5 prodCompra
    (by decide) (by decide) (by decide) (by decide)

/-- C6: an accepted cart line carries discounted unit price
`preco_venda * (1 - d/100)` and subtotal `discounted price * quantity`;
a committed order's header has status Pendente and total equal to the
sum of the cart subtotals, and the order lines stored for the new order
id have subtotals summing to exactly that stored total. -/
theorem pedido_desconto_e_total (db : DB) (pid : Nat) (qtd : Nat) (d : Rat)
    (carrinho : List ItemVenda) (prod : Produto) (c : Nat) (f : String)
    (hfind : encontrarProduto db pid = some prod) (hq : 0 < qtd)
    (hd0 : 0 ≤ d) (hd1 : d ≤ 100)
    (hok : (qtd : Int) ≤ prod.estoque_atual) (hrefs : refsValidas db) :
    (adicionarItem db pid qtd d carrinho = carrinho ++ [itemDe prod pid qtd d] ∧
     (itemDe prod pid qtd d).preco_unit = prod.preco_venda * (1 - d / 100) ∧
     (itemDe prod pid qtd d).subtotal =
       (itemDe prod pid qtd d).preco_unit * (qtd : Rat)) ∧
    ((registrarPedido db c f carrinho).pedidos =
       db.pedidos ++ [pedidoNovo db c f carrinho] ∧
     (pedidoNovo db c f carrinho).status_pedido = StatusPedido.pendente ∧
     (pedidoNovo db c f carrinho).valor_total =
       (carrinho.map ItemVenda.subtotal).sum ∧
     ((vendasDoPedido (registrarPedido db c f carrinho)
        (proximoPedidoId db)).map Venda.subtotal).sum =
       (pedidoNovo db c f carrinho).valor_total) := by
  refine ⟨⟨?_, rfl, rfl⟩, registrarPedido_pedidos db c f carrinho, rfl, rfl, ?_⟩
  · rw [adicionarItem_spec db pid qtd d carrinho prod hfind,
      if_neg (not_lt.mpr hok)]
  · rw [vendasDoPedido_registrar db c f carrinho hrefs,
      subtotais_das_vendas]
    rfl

/-- C6 witness: a line of 2 units at price 10 with a 10% discount on an
empty cart, committed for customer 3. -/
theorem pedido_desconto_e_total_witness :
    (adicionarItem dbPedido 2 2 10 [] = [] ++ [itemDe prodPedido 2 2 10] ∧
     (itemDe prodPedido 2 2 10).preco_unit =
       prodPedido.preco_venda * (1 - 10 / 100) ∧
     (itemDe prodPedido 2 2 10).subtotal =
       (itemDe prodPedido 2 2 10).preco_unit * ((2 : Nat) : Rat)) ∧
    ((registrarPedido dbPedido 3 "Pix" []).pedidos =
       dbPedido.pedidos ++ [pedidoNovo dbPedido 3 "Pix" []] ∧
     (pedidoNovo dbPedido 3 "Pix" []).status_pedido = StatusPedido.pendente ∧
     (pedidoNovo dbPedido 3 "Pix" []).valor_total =
       (([] : List ItemVenda).map ItemVenda.subtotal).sum ∧
     ((vendasDoPedido (registrarPedido dbPedido 3 "Pix" [])
        (proximoPedidoId dbPedido)).map Venda.subtotal).sum =
       (pedidoNovo dbPedido 3 "Pix" []).valor_total) :=
  pedido_desconto_e_total dbPedido 2 2 10 [] prodPedido 3 "Pix"
    (by decide) (by decide) (by decide) (by decide) (by decide)
    (by intro v hv; simp [dbPedido] at hv)
